import Mathlib

/-!
A shallow embedding of the device-protocol layer of `pyhatchbabyrest`
(`pyhatchbabyrest/pyhatchbabyrest.py`): status-packet decoding, command
string encoding, and the session operations of the `PyHatchBabyRest`
class, together with theorems about them.

Effectful methods are modelled as pure functions that take the byte
sequences the transport would return for each characteristic read, and
produce the trace of transport events (writes, sleeps, reads) next to the
resulting cached state, mirroring the Python control flow statement by
statement.
-/

/-- Modelled from the spec: the fixed TX characteristic handle. The real
identifier lives in `constants.py`, which the spec describes only as a
fixed constant supplied by configuration; its concrete value never
matters below, only that it differs from the FEEDBACK handle. -/
def CHAR_TX : String := "CHAR_TX"

/-- Modelled from the spec: the fixed FEEDBACK characteristic handle. -/
def CHAR_FEEDBACK : String := "CHAR_FEEDBACK"

/-- Modelled from the spec: `SoundMode = Known(code) | Unknown(byte)`. The
sound enumeration `PyHatchBabyRestSound` lives in `constants.py`, outside
the sources at hand; the spec requires a byte outside the known
enumeration to surface as a tagged variant rather than a failure. -/
inductive SoundMode where
  | known (code : Nat)
  | unknown (byte : Nat)
deriving DecidableEq, Repr

/-- Modelled from the spec: the set of known sound codes is device-defined
and opaque to the spec; a representative finite set is fixed here, and
every theorem below is independent of the particular choice. -/
def knownSoundCodes : List Nat := [0, 2, 3, 4, 5, 6, 7, 9, 10, 11, 13, 14]

/-- Modelled from the spec: casting a raw sound byte into `SoundMode`,
total on all byte values. -/
def soundOfByte (b : Nat) : SoundMode :=
  if b ∈ knownSoundCodes then SoundMode.known b else SoundMode.unknown b

/-- Python exceptions the modelled code can raise. A bare `assert` raises
`AssertionError` carrying no message; list indexing out of range raises
`IndexError`; `connect` raises `ValueError` with a message, and
`RuntimeError` mentioning the requested device name (the Python message
text is "Can..t find device with name: {name}."). -/
inductive PyError where
  | indexError
  | assertionError
  | valueError (msg : String)
  | runtimeError (name : String)
deriving DecidableEq, Repr

/-- The decoded device state cached on the `PyHatchBabyRest` object as the
attributes `color`, `brightness`, `sound`, `volume` and `power`
(`_refresh_data`, lines 74-78 of `pyhatchbabyrest.py`). -/
structure StatusSnapshot where
  color : Nat × Nat × Nat
  brightness : Nat
  sound : SoundMode
  volume : Nat
  power : Bool
deriving DecidableEq, Repr

instance {ε α : Type} [DecidableEq ε] [DecidableEq α] : DecidableEq (Except ε α) := fun x y =>
  match x, y with
  | Except.ok a, Except.ok b =>
      if h : a = b then Decidable.isTrue (by rw [h]) else Decidable.isFalse (by simp [h])
  | Except.error a, Except.error b =>
      if h : a = b then Decidable.isTrue (by rw [h]) else Decidable.isFalse (by simp [h])
  | Except.ok _, Except.error _ => Decidable.isFalse (by simp)
  | Except.error _, Except.ok _ => Decidable.isFalse (by simp)

/-- Python list indexing `response[i]`: raises `IndexError` when `i` is out
of range. -/
def byteAt (p : List Nat) (i : Nat) : Except PyError Nat :=
  match p[i]? with
  | some b => Except.ok b
  | none => Except.error PyError.indexError

/-- Python bare `assert cond`: raises `AssertionError` (with no message at
all) when `cond` is false. -/
def assertTrue (cond : Bool) : Except PyError Unit :=
  if cond then Except.ok () else Except.error PyError.assertionError

/-- The pure core of `_refresh_data` (lines 59-72): validate the three
marker bytes, then extract the fields. The Python code first maps every
byte through `hex` and compares the resulting strings ("0x43" etc.),
converting back with `int(x, 16)`; on byte values that round trip is the
identity, so the model compares byte values directly. The source reads
bytes 6-9 with the slice `response[6:10]`, which is reachable only after
the marker check at index 13 succeeded, hence always yields exactly four
elements; it is modelled as four indexings. The order of the checks and
reads follows the source line by line. -/
def decode (p : List Nat) : Except PyError StatusSnapshot := do
  let b5 ← byteAt p 5
  assertTrue (b5 == 0x43)     -- line 62, marker of the color section
  let b10 ← byteAt p 10
  assertTrue (b10 == 0x53)    -- line 63, marker of the audio section
  let b13 ← byteAt p 13
  assertTrue (b13 == 0x50)    -- line 64, marker of the power section
  let red ← byteAt p 6
  let green ← byteAt p 7
  let blue ← byteAt p 8
  let brightness ← byteAt p 9
  let sound := soundOfByte (← byteAt p 11)
  let volume ← byteAt p 12
  let b14 ← byteAt p 14
  let power := 0b11000000 &&& b14 == 0   -- line 72: not bool(0b11000000 & b14)
  return { color := (red, green, blue), brightness := brightness,
           sound := sound, volume := volume, power := power }

/-- The concrete scenario packet of the spec: bytes 5..14 are
0x43, 0x10, 0x20, 0x30, 0xFF, 0x53, 0x02, 0x64, 0x50, 0x00. -/
def concretePacket : List Nat :=
  [0, 0, 0, 0, 0, 0x43, 0x10, 0x20, 0x30, 0xFF, 0x53, 0x02, 0x64, 0x50, 0x00]

example : decode concretePacket =
    Except.ok { color := (16, 32, 48), brightness := 255,
                sound := SoundMode.known 2, volume := 100, power := true } := by
  decide

/-- Python `"{:x}".format(n)` on a natural number: lowercase hexadecimal
digits, no padding (`Nat.toDigits 16` uses the lowercase digit characters). -/
def lowerHex (n : Nat) : List Char := Nat.toDigits 16 n

/-- Python `"{:02x}".format(n)` on a natural number: lowercase hexadecimal,
zero-padded on the left to a minimum width of two characters. Values of
256 and above keep all their digits (Python raises no error for them). -/
def format02x (n : Nat) : String :=
  String.mk (List.replicate (2 - (lowerHex n).length) '0' ++ lowerHex n)

/-- Line 84: the command string of `power_on`. -/
def power_on_command : String := "SI" ++ format02x 1

/-- Line 88: the command string of `power_off`. -/
def power_off_command : String := "SI" ++ format02x 0

/-- Line 92: the command string of `set_sound`. -/
def set_sound_command (sound : Nat) : String := "SN" ++ format02x sound

/-- Line 96: the command string of `set_volume`. -/
def set_volume_command (volume : Nat) : String := "SV" ++ format02x volume

/-- Lines 102 and 108: the command string of `set_color` and
`set_brightness`, four arguments in the order red, green, blue,
brightness. -/
def set_color_command (red green blue brightness : Nat) : String :=
  "SC" ++ format02x red ++ format02x green ++ format02x blue ++ format02x brightness

/-- One observable transport interaction of the modelled code: a scan, the
opening of a session at an address, a characteristic write, a sleep of a
number of milliseconds, or a characteristic read. -/
inductive Event where
  | scan
  | adapterConnect (addr : Option String)
  | charWrite (handle : String) (data : String)
  | sleepMs (ms : Nat)
  | charRead (handle : String)
deriving DecidableEq, Repr

/-- Whether an event is a characteristic read, i.e. the transport half of a
`_refresh_data` call. -/
def Event.isRead : Event → Bool
  | Event.charRead _ => true
  | _ => false

/-- Number of status refreshes witnessed by a trace. -/
def refreshCount (tr : List Event) : Nat := (tr.filter Event.isRead).length

/-- The state mutation of `_refresh_data` applied to the cached snapshot:
the attribute assignments at lines 74-78 all sit after every extraction,
so a Python exception anywhere in lines 59-72 propagates before any
attribute is touched, leaving the old snapshot in place. -/
def tryRefresh (st : StatusSnapshot) (resp : List Nat) :
    StatusSnapshot × Option PyError :=
  match decode resp with
  | Except.ok snap => (snap, none)
  | Except.error e => (st, some e)

/-- Like `tryRefresh`, but the characteristic read itself
(`self.device.char_read`, line 59) may also fail with a transport error,
in which case nothing at all is decoded or assigned. -/
def tryRefreshRead (st : StatusSnapshot) (readResult : Except PyError (List Nat)) :
    StatusSnapshot × Option PyError :=
  match readResult with
  | Except.error e => (st, some e)
  | Except.ok resp => tryRefresh st resp

/-- Lines 48-55, `_send_command`: write the command to the TX
characteristic, sleep 0.25 seconds, then `_refresh_data` (whose transport
half is the read event and whose decode consumes `resp`). -/
def send_command (st : StatusSnapshot) (command : String) (resp : List Nat) :
    List Event × StatusSnapshot × Option PyError :=
  ([Event.charWrite CHAR_TX command, Event.sleepMs 250, Event.charRead CHAR_FEEDBACK],
   tryRefresh st resp)

/-- Lines 83-85, `power_on`. -/
def power_on (st : StatusSnapshot) (resp : List Nat) :
    List Event × StatusSnapshot × Option PyError :=
  send_command st power_on_command resp

/-- Lines 87-89, `power_off`. -/
def power_off (st : StatusSnapshot) (resp : List Nat) :
    List Event × StatusSnapshot × Option PyError :=
  send_command st power_off_command resp

/-- Lines 91-93, `set_sound`. -/
def set_sound (st : StatusSnapshot) (sound : Nat) (resp : List Nat) :
    List Event × StatusSnapshot × Option PyError :=
  send_command st (set_sound_command sound) resp

/-- Lines 95-97, `set_volume`. -/
def set_volume (st : StatusSnapshot) (volume : Nat) (resp : List Nat) :
    List Event × StatusSnapshot × Option PyError :=
  send_command st (set_volume_command volume) resp

/-- Lines 99-103, `set_color`: refresh first (consuming `resp1`); when that
refresh raises, the exception propagates and nothing is written; otherwise
build the command with the freshly cached brightness and send it
(consuming `resp2`). -/
def set_color (st : StatusSnapshot) (red green blue : Nat) (resp1 resp2 : List Nat) :
    List Event × StatusSnapshot × Option PyError :=
  match decode resp1 with
  | Except.error e => ([Event.charRead CHAR_FEEDBACK], st, some e)
  | Except.ok st1 =>
    let r := send_command st1 (set_color_command red green blue st1.brightness) resp2
    (Event.charRead CHAR_FEEDBACK :: r.1, r.2)

/-- Lines 105-111, `set_brightness`: refresh first (consuming `resp1`),
then send a color command with the freshly cached color components and the
new brightness (consuming `resp2`). -/
def set_brightness (st : StatusSnapshot) (brightness : Nat) (resp1 resp2 : List Nat) :
    List Event × StatusSnapshot × Option PyError :=
  match decode resp1 with
  | Except.error e => ([Event.charRead CHAR_FEEDBACK], st, some e)
  | Except.ok st1 =>
    let r := send_command st1
      (set_color_command st1.color.1 st1.color.2.1 st1.color.2.2 brightness) resp2
    (Event.charRead CHAR_FEEDBACK :: r.1, r.2)

/-- One result of the transport scan: Python a dict with the keys `name`
and `address`. -/
structure ScanResult where
  name : String
  address : String
deriving DecidableEq, Repr

/-- The connection-relevant attributes of a `PyHatchBabyRest` object:
`device` is the transport session attribute (`self.device`), holding the
address it was opened at, or `none` when no session was ever opened;
`snapshot` is the cached decoded state, `none` before the first
successful refresh. -/
structure SessionState where
  device : Option String
  snapshot : Option StatusSnapshot
deriving DecidableEq, Repr

/-- Lines 33-39 of `connect`: the for loop over scan results with its
`else` clause, taking the first result whose name equals the requested
name and raising `RuntimeError` naming the device when none matches. -/
def resolve_addr (name : String) (devices : List ScanResult) : Except PyError String :=
  match devices.find? (fun d => d.name == name) with
  | some d => Except.ok d.address
  | none => Except.error (PyError.runtimeError name)

/-- Lines 42-46 of `connect`: open the transport session at the resolved
address (`self.device = self.adapter.connect(addr, ...)`), then run the
initial `_refresh_data`. On a decode failure the exception propagates
with `self.device` already assigned; no rollback or release happens. -/
def connectAt (st : SessionState) (addr : Option String) (resp : List Nat) :
    List Event × SessionState × Option PyError :=
  let st1 : SessionState := { st with device := addr }
  match decode resp with
  | Except.ok snap =>
      ([Event.adapterConnect addr, Event.charRead CHAR_FEEDBACK],
       { st1 with snapshot := some snap }, none)
  | Except.error e =>
      ([Event.adapterConnect addr, Event.charRead CHAR_FEEDBACK], st1, some e)

/-- Lines 24-46, `connect`: raise `ValueError` when neither `addr` nor
`name` is given; when `name` is truthy (a nonempty string) scan and
resolve it to an address, raising `RuntimeError` when no scan result
matches; then open the session at the resulting address and refresh. A
falsy name (the empty string) skips the scan and hands the unchanged
`addr` — possibly `none` — straight to the transport. -/
def connect (st : SessionState) (name addr : Option String) (devices : List ScanResult)
    (resp : List Nat) : List Event × SessionState × Option PyError :=
  if addr = none ∧ name = none then
    ([], st, some (PyError.valueError "Either addr or name must be set."))
  else
    match name with
    | some nm =>
        if nm = "" then connectAt st addr resp
        else
          match resolve_addr nm devices with
          | Except.error e => ([Event.scan], st, some e)
          | Except.ok a =>
              let r := connectAt st (some a) resp
              (Event.scan :: r.1, r.2)
    | none => connectAt st addr resp

/-- The synthetic feedback packet of the round-trip property: the four
payload bytes at offsets 6-9, the three markers at their offsets, and
zeroes elsewhere. -/
def syntheticFeedback (red green blue brightness : Nat) : List Nat :=
  [0, 0, 0, 0, 0, 0x43, red, green, blue, brightness, 0x53, 0, 0, 0x50, 0]

/-- A 15-byte packet with valid markers whose sound byte (offset 11) is
`b` and whose other payload bytes are zero. -/
def packetWithSound (b : Nat) : List Nat :=
  [0, 0, 0, 0, 0, 0x43, 0, 0, 0, 0, 0x53, b, 0, 0x50, 0]

/-- Value of a lowercase hexadecimal digit character. -/
def hexDigitVal (c : Char) : Option Nat :=
  if '0' ≤ c ∧ c ≤ '9' then some (c.toNat - '0'.toNat)
  else if 'a' ≤ c ∧ c ≤ 'f' then some (c.toNat - 'a'.toNat + 10)
  else none

/-- Parse a string of exactly two lowercase hexadecimal digits back into a
byte value. -/
def parseHex2 (s : String) : Option Nat :=
  match s.data with
  | [h, l] => do
      let hv ← hexDigitVal h
      let lv ← hexDigitVal l
      pure (16 * hv + lv)
  | _ => none

/-- The `i`-th two-hex-digit argument group of an encoded command string,
read back as a byte value (0 when the group does not parse). -/
def cmdArg (cmd : String) (i : Nat) : Nat :=
  (parseHex2 (String.mk ((cmd.data.drop (2 + 2 * i)).take 2))).getD 0

/-- Whether decoding raised some Python exception. -/
def decodeFails (p : List Nat) : Bool :=
  match decode p with
  | Except.ok _ => false
  | Except.error _ => true

/-- The snapshot the concrete scenario packet decodes to. -/
def concreteSnapshot : StatusSnapshot :=
  { color := (16, 32, 48), brightness := 255, sound := SoundMode.known 2,
    volume := 100, power := true }

/-- An arbitrary cached snapshot, used to exhibit that failed refreshes
leave the cache alone. -/
def snap0 : StatusSnapshot :=
  { color := (1, 2, 3), brightness := 4, sound := SoundMode.known 0,
    volume := 5, power := false }

/-- A fresh session: no transport session opened, no snapshot cached. -/
def sess0 : SessionState := { device := none, snapshot := none }

/-- Reading a byte inside the bounds of the packet succeeds. -/
theorem byteAt_eq_ok (p : List Nat) (i : Nat) (h : i < p.length) :
    byteAt p i = Except.ok (p[i]?.getD 0) := by
  unfold byteAt
  cases hg : p[i]? with
  | none => exact absurd (List.getElem?_eq_none_iff.mp hg) (by omega)
  | some v => simp

/-- Unfolding of `decode` on a packet of at least 15 bytes whose three
marker bytes are correct. -/
theorem decode_of_valid (p : List Nat) (h15 : 15 ≤ p.length)
    (h5 : p[5]? = some 0x43) (h10 : p[10]? = some 0x53) (h13 : p[13]? = some 0x50) :
    decode p = Except.ok
      { color := (p[6]?.getD 0, p[7]?.getD 0, p[8]?.getD 0),
        brightness := p[9]?.getD 0,
        sound := soundOfByte (p[11]?.getD 0),
        volume := p[12]?.getD 0,
        power := 0b11000000 &&& p[14]?.getD 0 == 0 } := by
  have e5 : byteAt p 5 = Except.ok 0x43 := by
    rw [byteAt_eq_ok p 5 (by omega)]; simp [h5]
  have e10 : byteAt p 10 = Except.ok 0x53 := by
    rw [byteAt_eq_ok p 10 (by omega)]; simp [h10]
  have e13 : byteAt p 13 = Except.ok 0x50 := by
    rw [byteAt_eq_ok p 13 (by omega)]; simp [h13]
  have e6 := byteAt_eq_ok p 6 (by omega)
  have e7 := byteAt_eq_ok p 7 (by omega)
  have e8 := byteAt_eq_ok p 8 (by omega)
  have e9 := byteAt_eq_ok p 9 (by omega)
  have e11 := byteAt_eq_ok p 11 (by omega)
  have e12 := byteAt_eq_ok p 12 (by omega)
  have e14 := byteAt_eq_ok p 14 (by omega)
  simp [decode, e5, e10, e13, e6, e7, e8, e9, e11, e12, e14, assertTrue,
        bind, Except.bind, pure, Except.pure]

/-- Successful decoding forces a length of at least 15 and the three
marker bytes. -/
theorem decode_ok_markers (p : List Nat) (s : StatusSnapshot)
    (h : decode p = Except.ok s) :
    15 ≤ p.length ∧ p[5]? = some 0x43 ∧ p[10]? = some 0x53 ∧ p[13]? = some 0x50 := by
  have h5 : p[5]? = some 0x43 := by
    by_contra hbad
    cases hg : p[5]? with
    | none => simp [decode, byteAt, hg, bind, Except.bind] at h
    | some v =>
        have hv : (v == 0x43) = false := by
          simp only [beq_eq_false_iff_ne]
          intro hv; exact hbad (by rw [hg, hv])
        simp [decode, byteAt, hg, assertTrue, hv, bind, Except.bind] at h
  have h10 : p[10]? = some 0x53 := by
    by_contra hbad
    cases hg : p[10]? with
    | none => simp [decode, byteAt, hg, h5, assertTrue, bind, Except.bind] at h
    | some v =>
        have hv : (v == 0x53) = false := by
          simp only [beq_eq_false_iff_ne]
          intro hv; exact hbad (by rw [hg, hv])
        simp [decode, byteAt, hg, h5, assertTrue, hv, bind, Except.bind] at h
  have h13 : p[13]? = some 0x50 := by
    by_contra hbad
    cases hg : p[13]? with
    | none => simp [decode, byteAt, hg, h5, h10, assertTrue, bind, Except.bind] at h
    | some v =>
        have hv : (v == 0x50) = false := by
          simp only [beq_eq_false_iff_ne]
          intro hv; exact hbad (by rw [hg, hv])
        simp [decode, byteAt, hg, h5, h10, assertTrue, hv, bind, Except.bind] at h
  have hlen13 : 13 < p.length := by
    obtain ⟨hl, -⟩ := List.getElem?_eq_some_iff.mp h13
    exact hl
  have h14 : 15 ≤ p.length := by
    by_contra hbad
    have hg : p[14]? = none := List.getElem?_eq_none (by omega)
    have e6 : p[6]? = some p[6] := List.getElem?_eq_getElem (by omega)
    have e7 : p[7]? = some p[7] := List.getElem?_eq_getElem (by omega)
    have e8 : p[8]? = some p[8] := List.getElem?_eq_getElem (by omega)
    have e9 : p[9]? = some p[9] := List.getElem?_eq_getElem (by omega)
    have e11 : p[11]? = some p[11] := List.getElem?_eq_getElem (by omega)
    have e12 : p[12]? = some p[12] := List.getElem?_eq_getElem (by omega)
    simp [decode, byteAt, hg, h5, h10, h13, e6, e7, e8, e9, e11, e12,
          assertTrue, bind, Except.bind] at h
  exact ⟨h14, h5, h10, h13⟩

example : decode (List.replicate 10 0x43) = Except.error PyError.indexError := by decide

example : format02x 171 = "ab" := by decide
example : format02x 1 = "01" := by decide
example : format02x 256 = "100" := by decide
example : set_color_command 16 32 48 255 = "SC102030ff" := by decide
example : cmdArg (set_color_command 16 32 48 255) 3 = 255 := by decide

/-- C1: for every status packet of at least 15 bytes whose three marker
bytes are correct, `decode` maps the packet per the fixed layout — bytes
6, 7, 8, 9 become red, green, blue and brightness (raw 0-255 values),
byte 11 becomes the sound code, byte 12 becomes volume, and power is true
exactly when byte 14 AND 0xC0 equals zero. The witness instantiates it at
the concrete scenario packet, which decodes to color (16, 32, 48),
brightness 255, sound code 2, volume 100, power true. -/
theorem C1_decode_layout (p : List Nat) (h15 : 15 ≤ p.length)
    (h5 : p[5]? = some 0x43) (h10 : p[10]? = some 0x53) (h13 : p[13]? = some 0x50) :
    decode p = Except.ok
      { color := (p[6]?.getD 0, p[7]?.getD 0, p[8]?.getD 0),
        brightness := p[9]?.getD 0,
        sound := soundOfByte (p[11]?.getD 0),
        volume := p[12]?.getD 0,
        power := 0b11000000 &&& p[14]?.getD 0 == 0 } :=
  decode_of_valid p h15 h5 h10 h13

/-- Witness for C1: the concrete scenario packet of the spec. -/
theorem C1_decode_layout_witness :
    decode concretePacket = Except.ok concreteSnapshot := by
  have h := C1_decode_layout concretePacket (by decide) (by decide) (by decide) (by decide)
  rw [h]; decide

/-- C2, amended: `decode` fails whenever the packet is shorter than 15
bytes or any of the three marker bytes is wrong, and the cached snapshot
is left untouched on such a failure; however — contrary to the claim —
the raised error is a bare `AssertionError` (or an `IndexError` for a
missing byte) that names neither the failing marker nor its actual value. -/
theorem C2_decode_fails (p : List Nat) (st : StatusSnapshot)
    (hbad : p.length < 15 ∨ p[5]? ≠ some 0x43 ∨ p[10]? ≠ some 0x53 ∨ p[13]? ≠ some 0x50) :
    decodeFails p = true ∧ (tryRefresh st p).1 = st := by
  cases hd : decode p with
  | ok s =>
      obtain ⟨hl, m5, m10, m13⟩ := decode_ok_markers p s hd
      rcases hbad with h | h | h | h
      · omega
      · exact absurd m5 h
      · exact absurd m10 h
      · exact absurd m13 h
  | error e =>
      constructor
      · simp [decodeFails, hd]
      · simp [tryRefresh, hd]

/-- Witness for C2 at the empty packet (shorter than 15 bytes). -/
theorem C2_decode_fails_witness :
    decodeFails [] = true ∧ (tryRefresh snap0 []).1 = snap0 :=
  C2_decode_fails [] snap0 (by decide)

/-- C2, counterexample: two packets that fail different marker checks —
byte 5 is 0x00 in the first, byte 10 is 0x99 in the second — raise the
very same bare `AssertionError` value, which carries no message at all;
the raised error therefore cannot name which marker failed or its actual
value, contrary to the claim. -/
theorem C2_error_counterexample :
    decode [0, 0, 0, 0, 0, 0x00, 0, 0, 0, 0, 0x53, 0, 0, 0x50, 0]
        = Except.error PyError.assertionError
    ∧ decode [0, 0, 0, 0, 0, 0x43, 0, 0, 0, 0, 0x99, 0, 0, 0x50, 0]
        = Except.error PyError.assertionError := by decide

/-- C7: decoding never fails on the sound field. A sound byte outside the
known enumeration surfaces as the unknown variant, and a known code as
the known variant, on an otherwise fixed valid packet. -/
theorem C7_sound_total (b c : Nat) (hb : b ∉ knownSoundCodes) (hc : c ∈ knownSoundCodes) :
    decode (packetWithSound b) = Except.ok
      { color := (0, 0, 0), brightness := 0, sound := SoundMode.unknown b,
        volume := 0, power := true }
    ∧ decode (packetWithSound c) = Except.ok
      { color := (0, 0, 0), brightness := 0, sound := SoundMode.known c,
        volume := 0, power := true } := by
  have hb' : decode (packetWithSound b) = Except.ok
      { color := (0, 0, 0), brightness := 0, sound := soundOfByte b,
        volume := 0, power := true } := by
    simp [decode, packetWithSound, byteAt, assertTrue, bind, Except.bind, pure, Except.pure]
  have hc' : decode (packetWithSound c) = Except.ok
      { color := (0, 0, 0), brightness := 0, sound := soundOfByte c,
        volume := 0, power := true } := by
    simp [decode, packetWithSound, byteAt, assertTrue, bind, Except.bind, pure, Except.pure]
  rw [hb', hc']
  constructor
  · simp [soundOfByte, hb]
  · simp [soundOfByte, hc]

/-- Witness for C7: byte 77 is outside the known enumeration, code 2 is a
known sound code. -/
theorem C7_sound_total_witness :
    decode (packetWithSound 77) = Except.ok
      { color := (0, 0, 0), brightness := 0, sound := SoundMode.unknown 77,
        volume := 0, power := true }
    ∧ decode (packetWithSound 2) = Except.ok
      { color := (0, 0, 0), brightness := 0, sound := SoundMode.known 2,
        volume := 0, power := true } :=
  C7_sound_total 77 2 (by decide) (by decide)

/-- C9: a failed refresh — whether the transport read itself raised, or
the packet decoded with an error (short packet or marker mismatch) —
leaves the previously cached snapshot completely untouched. -/
theorem C9_failed_refresh_preserves (st : StatusSnapshot) (resp : List Nat) (e : PyError)
    (h : decode resp = Except.error e) :
    tryRefresh st resp = (st, some e)
    ∧ tryRefreshRead st (Except.ok resp) = (st, some e)
    ∧ tryRefreshRead st (Except.error e) = (st, some e) := by
  refine ⟨?_, ?_, rfl⟩ <;> simp [tryRefresh, tryRefreshRead, h]

/-- Witness for C9 at the empty packet and the cache `snap0`. -/
theorem C9_failed_refresh_preserves_witness :
    tryRefresh snap0 [] = (snap0, some PyError.indexError)
    ∧ tryRefreshRead snap0 (Except.ok []) = (snap0, some PyError.indexError)
    ∧ tryRefreshRead snap0 (Except.error PyError.indexError)
        = (snap0, some PyError.indexError) :=
  C9_failed_refresh_preserves snap0 [] PyError.indexError (by decide)

/-- C5: `_send_command`, as invoked by every typed mutator, performs
exactly the ordered sequence write-to-TX, sleep 250 milliseconds, status
refresh (the read of the FEEDBACK characteristic): the trace equalities
place the write at position 0, the sleep at position 1 and the refresh
read at position 2, so the refresh never comes before the delay and the
delay never comes before the write. For `set_color` and `set_brightness`
the extra read in front is their own pre-refresh; the `_send_command`
part that follows it is the same exact sequence. -/
theorem C5_send_command_order (st st1 : StatusSnapshot) (command : String)
    (sound volume red green blue brightness : Nat) (resp resp1 resp2 : List Nat)
    (h1 : decode resp1 = Except.ok st1) :
    (send_command st command resp).1
        = [Event.charWrite CHAR_TX command, Event.sleepMs 250,
           Event.charRead CHAR_FEEDBACK]
    ∧ (power_on st resp).1
        = [Event.charWrite CHAR_TX power_on_command, Event.sleepMs 250,
           Event.charRead CHAR_FEEDBACK]
    ∧ (power_off st resp).1
        = [Event.charWrite CHAR_TX power_off_command, Event.sleepMs 250,
           Event.charRead CHAR_FEEDBACK]
    ∧ (set_sound st sound resp).1
        = [Event.charWrite CHAR_TX (set_sound_command sound), Event.sleepMs 250,
           Event.charRead CHAR_FEEDBACK]
    ∧ (set_volume st volume resp).1
        = [Event.charWrite CHAR_TX (set_volume_command volume), Event.sleepMs 250,
           Event.charRead CHAR_FEEDBACK]
    ∧ (set_color st red green blue resp1 resp2).1
        = [Event.charRead CHAR_FEEDBACK,
           Event.charWrite CHAR_TX (set_color_command red green blue st1.brightness),
           Event.sleepMs 250, Event.charRead CHAR_FEEDBACK]
    ∧ (set_brightness st brightness resp1 resp2).1
        = [Event.charRead CHAR_FEEDBACK,
           Event.charWrite CHAR_TX
             (set_color_command st1.color.1 st1.color.2.1 st1.color.2.2 brightness),
           Event.sleepMs 250, Event.charRead CHAR_FEEDBACK] := by
  refine ⟨rfl, rfl, rfl, rfl, rfl, ?_, ?_⟩ <;>
    simp [set_color, set_brightness, h1, send_command]

/-- Witness for C5, instantiated with the concrete scenario packet as both
refresh responses. -/
theorem C5_send_command_order_witness :
    (set_brightness snap0 200 concretePacket concretePacket).1
        = [Event.charRead CHAR_FEEDBACK,
           Event.charWrite CHAR_TX (set_color_command 16 32 48 200),
           Event.sleepMs 250, Event.charRead CHAR_FEEDBACK] :=
  (C5_send_command_order snap0 concreteSnapshot "SV64" 1 2 3 4 5 200
    concretePacket concretePacket concretePacket (by decide)).2.2.2.2.2.2

/-- C6: `set_brightness` refreshes first, then sends one single color
command embedding the color cached by that pre-refresh unchanged next to
the new brightness, and performs exactly two refreshes in total (the
pre-read and the post-write confirm inside `_send_command`); when the
confirming status carries the same color — the command itself embeds that
very color — the cached color components are preserved by the
brightness-only change. -/
theorem C6_set_brightness_preserves_color (st st1 st2 : StatusSnapshot)
    (brightness : Nat) (resp1 resp2 : List Nat)
    (h1 : decode resp1 = Except.ok st1) (h2 : decode resp2 = Except.ok st2)
    (hcolor : st2.color = st1.color) :
    set_brightness st brightness resp1 resp2 =
      ([Event.charRead CHAR_FEEDBACK,
        Event.charWrite CHAR_TX
          (set_color_command st1.color.1 st1.color.2.1 st1.color.2.2 brightness),
        Event.sleepMs 250, Event.charRead CHAR_FEEDBACK], st2, none)
    ∧ refreshCount (set_brightness st brightness resp1 resp2).1 = 2
    ∧ (set_brightness st brightness resp1 resp2).2.1.color = st1.color := by
  have hmain : set_brightness st brightness resp1 resp2 =
      ([Event.charRead CHAR_FEEDBACK,
        Event.charWrite CHAR_TX
          (set_color_command st1.color.1 st1.color.2.1 st1.color.2.2 brightness),
        Event.sleepMs 250, Event.charRead CHAR_FEEDBACK], st2, none) := by
    simp [set_brightness, h1, send_command, tryRefresh, h2]
  refine ⟨hmain, ?_, ?_⟩
  · have hfst := congrArg Prod.fst hmain
    rw [hfst]
    simp [refreshCount, Event.isRead]
  · have hsnd := congrArg (fun x => x.2.1) hmain
    simp only at hsnd
    rw [hsnd, hcolor]

/-- Witness for C6, instantiated with the concrete scenario packet as both
refresh responses: the command embeds the cached color (16, 32, 48) and
brightness 200, and the trace holds exactly two reads. -/
theorem C6_set_brightness_preserves_color_witness :
    set_brightness snap0 200 concretePacket concretePacket =
      ([Event.charRead CHAR_FEEDBACK,
        Event.charWrite CHAR_TX (set_color_command 16 32 48 200),
        Event.sleepMs 250, Event.charRead CHAR_FEEDBACK], concreteSnapshot, none)
    ∧ refreshCount (set_brightness snap0 200 concretePacket concretePacket).1 = 2
    ∧ (set_brightness snap0 200 concretePacket concretePacket).2.1.color = (16, 32, 48) :=
  C6_set_brightness_preserves_color snap0 concreteSnapshot concreteSnapshot 200
    concretePacket concretePacket (by decide) (by decide) rfl

/-- Appending strings concatenates their character data. -/
theorem string_data_append (s t : String) : (s ++ t).data = s.data ++ t.data := by
  cases s; cases t; rfl

set_option maxRecDepth 40000 in
/-- For byte values the zero-padded lowercase hex group is exactly two
characters long. -/
theorem format02x_length : ∀ n < 256, (format02x n).data.length = 2 := by decide

set_option maxRecDepth 40000 in
/-- For byte values the hex group parses back to the value it encodes. -/
theorem parseHex2_format02x : ∀ n < 256, parseHex2 (format02x n) = some n := by decide

set_option maxRecDepth 40000 in
/-- Every character of a hex group of a byte value is a lowercase
hexadecimal digit. -/
theorem format02x_hexchars : ∀ n < 256,
    ((format02x n).data.all fun c => (hexDigitVal c).isSome) = true := by decide

/-- Character data of an encoded color command: the opcode characters
followed by the four hex groups. -/
theorem set_color_command_data (r g b br : Nat) :
    (set_color_command r g b br).data
      = 'S' :: 'C' :: ((format02x r).data ++ ((format02x g).data
          ++ ((format02x b).data ++ (format02x br).data))) := by
  simp [set_color_command, string_data_append]

/-- The first argument group of a color command parses back to red. -/
theorem cmdArg_zero (r g b br : Nat) (hr : r < 256) :
    cmdArg (set_color_command r g b br) 0 = r := by
  have lr := format02x_length r hr
  have e : cmdArg (set_color_command r g b br) 0
      = (parseHex2 (String.mk (((format02x r).data ++ ((format02x g).data
          ++ ((format02x b).data ++ (format02x br).data))).take 2))).getD 0 := by
    simp only [cmdArg, set_color_command_data]
    rfl
  rw [e, List.take_left' lr, show String.mk (format02x r).data = format02x r from rfl,
      parseHex2_format02x r hr]
  rfl

/-- The second argument group of a color command parses back to green. -/
theorem cmdArg_one (r g b br : Nat) (hr : r < 256) (hg : g < 256) :
    cmdArg (set_color_command r g b br) 1 = g := by
  have lr := format02x_length r hr
  have lg := format02x_length g hg
  have e : cmdArg (set_color_command r g b br) 1
      = (parseHex2 (String.mk ((((format02x r).data ++ ((format02x g).data
          ++ ((format02x b).data ++ (format02x br).data))).drop 2).take 2))).getD 0 := by
    simp only [cmdArg, set_color_command_data]
    rfl
  rw [e, List.drop_left' lr, List.take_left' lg,
      show String.mk (format02x g).data = format02x g from rfl,
      parseHex2_format02x g hg]
  rfl

/-- The third argument group of a color command parses back to blue. -/
theorem cmdArg_two (r g b br : Nat) (hr : r < 256) (hg : g < 256) (hb : b < 256) :
    cmdArg (set_color_command r g b br) 2 = b := by
  have lr := format02x_length r hr
  have lg := format02x_length g hg
  have lb := format02x_length b hb
  have e : cmdArg (set_color_command r g b br) 2
      = (parseHex2 (String.mk ((((format02x r).data ++ ((format02x g).data
          ++ ((format02x b).data ++ (format02x br).data))).drop 4).take 2))).getD 0 := by
    simp only [cmdArg, set_color_command_data]
    rfl
  rw [e, show (4 : Nat) = 2 + 2 from rfl, ← List.drop_drop,
      List.drop_left' lr, List.drop_left' lg, List.take_left' lb,
      show String.mk (format02x b).data = format02x b from rfl,
      parseHex2_format02x b hb]
  rfl

/-- The fourth argument group of a color command parses back to the
brightness. -/
theorem cmdArg_three (r g b br : Nat) (hr : r < 256) (hg : g < 256) (hb : b < 256)
    (hbr : br < 256) :
    cmdArg (set_color_command r g b br) 3 = br := by
  have lr := format02x_length r hr
  have lg := format02x_length g hg
  have lb := format02x_length b hb
  have lbr := format02x_length br hbr
  have e : cmdArg (set_color_command r g b br) 3
      = (parseHex2 (String.mk ((((format02x r).data ++ ((format02x g).data
          ++ ((format02x b).data ++ (format02x br).data))).drop 6).take 2))).getD 0 := by
    simp only [cmdArg, set_color_command_data]
    rfl
  rw [e, show (6 : Nat) = 2 + (2 + 2) from rfl, ← List.drop_drop, ← List.drop_drop,
      List.drop_left' lr, List.drop_left' lg, List.drop_left' lb,
      List.take_of_length_le (le_of_eq lbr),
      show String.mk (format02x br).data = format02x br from rfl,
      parseHex2_format02x br hbr]
  rfl

/-- C3: for all byte values r, g, b, brightness, encoding a color command
with them and then decoding a synthetic feedback packet that carries the
four bytes read back out of the command string at offsets 6-9 (with valid
markers) yields back exactly those values as color and brightness. -/
theorem C3_roundtrip (r g b br : Nat) (hr : r < 256) (hg : g < 256) (hb : b < 256)
    (hbr : br < 256) :
    decode (syntheticFeedback
      (cmdArg (set_color_command r g b br) 0)
      (cmdArg (set_color_command r g b br) 1)
      (cmdArg (set_color_command r g b br) 2)
      (cmdArg (set_color_command r g b br) 3)) =
    Except.ok { color := (r, g, b), brightness := br, sound := soundOfByte 0,
                volume := 0, power := true } := by
  rw [cmdArg_zero r g b br hr, cmdArg_one r g b br hr hg,
      cmdArg_two r g b br hr hg hb, cmdArg_three r g b br hr hg hb hbr]
  simp [decode, syntheticFeedback, byteAt, assertTrue, bind, Except.bind, pure, Except.pure]

/-- Witness for C3 at color (16, 32, 48) and brightness 200. -/
theorem C3_roundtrip_witness :
    decode (syntheticFeedback
      (cmdArg (set_color_command 16 32 48 200) 0)
      (cmdArg (set_color_command 16 32 48 200) 1)
      (cmdArg (set_color_command 16 32 48 200) 2)
      (cmdArg (set_color_command 16 32 48 200) 3)) =
    Except.ok { color := (16, 32, 48), brightness := 200, sound := soundOfByte 0,
                volume := 0, power := true } :=
  C3_roundtrip 16 32 48 200 (by decide) (by decide) (by decide) (by decide)

/-- C4, amended: every command encoder produces the 2-letter opcode
followed by one zero-padded lowercase hex group per argument, and for
arguments 0-255 each group is exactly two hex digits; however — contrary
to the claim — an argument outside 0-255 is not rejected with a
`ValueError`: the encoder silently emits a wider hex group (see the
counterexample). -/
theorem C4_encoder_format (n : Nat) (h : n < 256) :
    (format02x n).data.length = 2
    ∧ ((format02x n).data.all fun c => (hexDigitVal c).isSome) = true
    ∧ power_on_command = "SI" ++ format02x 1
    ∧ power_off_command = "SI" ++ format02x 0
    ∧ set_sound_command n = "SN" ++ format02x n
    ∧ set_volume_command n = "SV" ++ format02x n
    ∧ set_color_command n n n n
        = "SC" ++ format02x n ++ format02x n ++ format02x n ++ format02x n :=
  ⟨format02x_length n h, format02x_hexchars n h, rfl, rfl, rfl, rfl, rfl⟩

/-- Witness for C4 at 171, whose group is the lowercase "ab". -/
theorem C4_encoder_format_witness :
    (format02x 171).data.length = 2
    ∧ ((format02x 171).data.all fun c => (hexDigitVal c).isSome) = true
    ∧ power_on_command = "SI" ++ format02x 1
    ∧ power_off_command = "SI" ++ format02x 0
    ∧ set_sound_command 171 = "SN" ++ format02x 171
    ∧ set_volume_command 171 = "SV" ++ format02x 171
    ∧ set_color_command 171 171 171 171
        = "SC" ++ format02x 171 ++ format02x 171 ++ format02x 171 ++ format02x 171 :=
  C4_encoder_format 171 (by decide)

/-- C4, counterexample: the encoder does not fail for the out-of-range
argument 256 — `"SV{:02x}".format(256)` simply yields the five-character
string "SV100" with a three-digit group, and no `ValueError` is raised. -/
theorem C4_no_failure_counterexample :
    set_volume_command 256 = "SV100" ∧ (format02x 256).data.length = 3 := by decide

/-- A filter with a singleton result pins down the first match. -/
theorem find?_of_filter_singleton {α : Type} (p : α → Bool) (l : List α) (d : α)
    (h : l.filter p = [d]) : l.find? p = some d := by
  induction l with
  | nil => simp at h
  | cons a t ih =>
      cases hp : p a with
      | true =>
          rw [List.filter_cons_of_pos hp] at h
          rw [List.find?_cons_of_pos t hp]
          simp at h
          exact congrArg some h.1
      | false =>
          rw [List.filter_cons_of_neg (by simp [hp])] at h
          rw [List.find?_cons_of_neg t (by simp [hp])]
          exact ih h

/-- C8, amended: for every nonempty name, `connect` scans and fails with
the `RuntimeError` that plays the role of `DeviceNotFound` when no scan
result bears that exact name — leaving the session state untouched — and
when exactly one scan result matches, it opens the transport session at
that result's address (the session attribute ends up bound to that
address whatever the subsequent initial refresh does). For the empty
name the scan is skipped altogether: see the counterexample. -/
theorem C8_connect_by_name (st : SessionState) (name : String) (addr : Option String)
    (devices : List ScanResult) (resp : List Nat) (hname : name ≠ "") :
    ((∀ x ∈ devices, x.name ≠ name) →
        connect st (some name) addr devices resp
          = ([Event.scan], st, some (PyError.runtimeError name)))
    ∧ (∀ d : ScanResult, devices.filter (fun x => x.name == name) = [d] →
        (connect st (some name) addr devices resp).1
            = [Event.scan, Event.adapterConnect (some d.address),
               Event.charRead CHAR_FEEDBACK]
          ∧ (connect st (some name) addr devices resp).2.1.device = some d.address) := by
  constructor
  · intro hnone
    have hfind : devices.find? (fun x => x.name == name) = none := by
      rw [List.find?_eq_none]
      intro x hx
      simp [hnone x hx]
    simp [connect, hname, resolve_addr, hfind]
  · intro d hd
    have hfind : devices.find? (fun x => x.name == name) = some d :=
      find?_of_filter_singleton _ _ _ hd
    cases hresp : decode resp with
    | ok snap =>
        constructor <;> simp [connect, hname, resolve_addr, hfind, connectAt, hresp]
    | error e =>
        constructor <;> simp [connect, hname, resolve_addr, hfind, connectAt, hresp]

/-- Witness for C8: scanning for "Rest" among no devices raises the
not-found error, and scanning among one matching device binds the session
to its address. -/
theorem C8_connect_by_name_witness :
    connect sess0 (some "Rest") none [] concretePacket
      = ([Event.scan], sess0, some (PyError.runtimeError "Rest"))
    ∧ (connect sess0 (some "Rest") none [{ name := "Rest", address := "aa:bb" }]
        concretePacket).2.1.device = some "aa:bb" := by
  constructor
  · exact (C8_connect_by_name sess0 "Rest" none [] concretePacket (by decide)).1
      (by simp)
  · exact ((C8_connect_by_name sess0 "Rest" none
      [{ name := "Rest", address := "aa:bb" }] concretePacket (by decide)).2
      { name := "Rest", address := "aa:bb" } (by decide)).2

/-- C8, counterexample: called with the empty name and a scan list whose
only entry is named "X" — so no result matches — `connect` does not fail
with the not-found error and never scans: the Python truthiness test
`if name:` treats the empty string as absent, skips the scan, and hands
the unset address straight to the transport (the resulting error here is
the IndexError of the failing initial refresh, not a RuntimeError). -/
theorem C8_empty_name_counterexample :
    connect sess0 (some "") none [{ name := "X", address := "aa" }] []
      = ([Event.adapterConnect none, Event.charRead CHAR_FEEDBACK],
         sess0, some PyError.indexError)
    ∧ Event.scan ∉ (connect sess0 (some "") none
        [{ name := "X", address := "aa" }] []).1 := by decide

/-- C10, amended: when the initial refresh inside `connect` fails, the
connect attempt fails as a whole (the decode error propagates and no
snapshot is cached); however — contrary to the claim — the just-opened
transport session is not released: the session attribute stays bound to
the address it was opened at. -/
theorem C10_connect_refresh_failure (st : SessionState) (a : String)
    (devices : List ScanResult) (resp : List Nat) (e : PyError)
    (hbad : decode resp = Except.error e) :
    connect st none (some a) devices resp
      = ([Event.adapterConnect (some a), Event.charRead CHAR_FEEDBACK],
         { device := some a, snapshot := st.snapshot }, some e) := by
  simp [connect, connectAt, hbad]

/-- Witness for C10: connecting at an address when the device answers the
initial status read with an empty packet. -/
theorem C10_connect_refresh_failure_witness :
    connect { device := none, snapshot := some snap0 } none (some "aa:bb") [] []
      = ([Event.adapterConnect (some "aa:bb"), Event.charRead CHAR_FEEDBACK],
         { device := some "aa:bb", snapshot := some snap0 }, some PyError.indexError) :=
  C10_connect_refresh_failure { device := none, snapshot := some snap0 }
    "aa:bb" [] [] PyError.indexError (by decide)

/-- C10, counterexample: the initial refresh fails (IndexError on the
empty packet) and the connect attempt fails as a whole, yet the session
attribute remains bound to the session opened at "aa:bb" — nothing is
rolled back or released, contrary to the claim. -/
theorem C10_dangling_session_counterexample :
    (connect sess0 none (some "aa:bb") [] []).2.2 = some PyError.indexError
    ∧ (connect sess0 none (some "aa:bb") [] []).2.1.device = some "aa:bb" := by decide
